import Mathlib

/-!
Shallow embedding of `src/totalsegmentator_konfai/main.py`
(TotalSegmentator-KonfAI command-line orchestrator).

The program is a linear pipeline: validate the input and output paths,
resolve the task to a model set, download artifacts, stage an ephemeral
workspace, convert the input, invoke the external `konfai` engine, harvest
and convert the prediction, and clean up.  All interaction with the outside
world (filesystem, Hugging Face hub, the engine subprocess, SimpleITK) is
captured by an `Oracle` of outcomes; the driver `main_run` is then a pure
function from the oracle and the parsed arguments to a `RunResult` holding
the ordered list of performed side effects, the ordered list of emitted
messages, and the process exit code.
-/

/-- Embeds `SUPPORTED_EXTENSIONS` (main.py lines 13-22). -/
def SUPPORTED_EXTENSIONS : List String :=
  ["mha", "mhd", "nii", "nii.gz", "nrrd", "nrrd.gz", "gipl", "gipl.gz"]

/-- Embeds Python `str.endswith`: the candidate extension is a character
suffix of the path string. -/
def endswith (s ext : String) : Bool :=
  List.isSuffixOf ext.data s.data

/-- Embeds the validation expression
`any(str(p).endswith(ext) for ext in SUPPORTED_EXTENSIONS)`
used at main.py lines 131 and 144 for the input and the output path. -/
def extOk (p : String) : Bool :=
  SUPPORTED_EXTENSIONS.any (fun ext => endswith p ext)

/-- Embeds `pathlib.Path.name` for ordinary (slash-separated, non-empty,
no-trailing-slash) file paths: the characters after the last `/`. -/
def pathName (p : String) : String :=
  String.mk ((p.data.reverse.takeWhile (fun c => c ≠ '/')).reverse)

/-- Embeds `_get_available_models` (main.py lines 33-34). -/
def _get_available_models : List String :=
  ["total", "total_mr"]

/-- Embeds the `choices=_get_available_models()` restriction that argparse
applies to the `--task` flag (main.py line 101): the accepted task strings. -/
def taskChoices : List String :=
  _get_available_models

/-- Embeds `get_models_name` (main.py lines 37-48): maps a task name and the
fast flag to the ordered model-identifier list and the inference
configuration file name. -/
def get_models_name (task : String) (fast : Bool) : List String × String :=
  let models_name : List String := []
  let inference_file : String := ""
  let models_name :=
    if task = "total" then
      if !fast then ["M291.pt", "M292.pt", "M293.pt", "M294.pt", "M295.pt"] else ["M297.pt"]
    else models_name
  let inference_file :=
    if task = "total" then
      if !fast then "Prediction_CT.yml" else "Prediction_CT_Fast.yml"
    else inference_file
  let models_name :=
    if task = "total_mr" then
      if !fast then ["M850.pt", "M851.pt"] else ["M852.pt"]
    else models_name
  let inference_file :=
    if task = "total_mr" then
      if !fast then "Prediction_MR.yml" else "Prediction_MR_Fast.yml"
    else inference_file
  (models_name, inference_file)

/-- Outcome of the `subprocess.run` call (main.py lines 192-199):
either the executable is absent (`FileNotFoundError`) or the child process
ran and exited with a status code (`CalledProcessError` carries it when it
is nonzero). -/
inductive EngineResult
  | notFound
  | exited (code : Nat)
deriving DecidableEq

/-- Outcome of `out_parent.mkdir(parents=True, exist_ok=True)` (main.py
line 139): the directory was newly created, it already existed (no side
effect), or the call raised. -/
inductive MkdirResult
  | created
  | existed
  | failed
deriving DecidableEq

/-- Observable side effects of one run, in order of occurrence.  Paths of
workspace-internal effects are relative to the workspace root. -/
inductive SideEffect
  | mkdirOutParent
  | download (filename : String)
  | mkdirWorkspace
  | copyModelFile
  | writeStagedVolume
  | runEngine (cmd : List String)
  | writeUserOutput
  | removeWorkspace
deriving DecidableEq

/-- Messages printed by the program, one constructor per `print` call, each
carrying the run-dependent data interpolated into the corresponding
f-string. -/
inductive Msg
  | inputMissing (path : String)
  | unsupportedInput (name : String)
  | supported (exts : List String)
  | unsupportedOutput (name : String)
  | cannotCreateOutDir
  | konfaiNotInPath
  | downloadError
  | cannotCopyModel
  | sitkInOutError (src dst : String)
  | engineFailed (code : Nat)
  | konfaiExeNotFound
  | predictionNotFound (path : String)
  | outputSaveError (src dst : String)
  | done (path : String)
deriving DecidableEq

/-- External-world outcomes consumed by one run: filesystem facts, the
result of each `hf_hub_download` by filename, and the staging / engine /
conversion outcomes. -/
structure Oracle where
  inputExists : Bool
  mkdirRes : MkdirResult
  konfaiOnPath : Bool
  fetch : String → Option String
  copyOk : Bool
  readWriteOk : Bool
  engine : EngineResult
  predExists : Bool
  convertOutOk : Bool

/-- Parsed command-line arguments (after argparse; `input` and `output` are
the absolutized path strings). -/
structure Args where
  input : String
  output : String
  task : String
  fast : Bool
  quiet : Bool
  gpu : String
  cpu : Int

/-- Result of one run: ordered side effects, ordered messages, exit code. -/
structure RunResult where
  trace : List SideEffect
  messages : List Msg
  exitCode : Nat
deriving DecidableEq

/-- Fetches each filename in order through the oracle, recording one
`download` side effect per attempted `hf_hub_download` call and stopping at
the first failure (the Python loop at main.py lines 54-59 inside the
`try`). -/
def fetchList (f : String → Option String) : List String → List SideEffect × Option (List String)
  | [] => ([], some [])
  | n :: ns =>
    match f n with
    | none => ([SideEffect.download n], none)
    | some p =>
      let r := fetchList f ns
      (SideEffect.download n :: r.1, r.2.map (fun ps => p :: ps))

/-- Embeds `download_models` (main.py lines 51-70): fetch every model file in
order, then `Model.py`, then the inference configuration file; any failure
aborts the whole bundle (the surrounding `try`/`except`).  Returns the
attempted download side effects and, on success,
`(models_path, inference_file_path, model_path)` exactly as the source
returns them. -/
def download_models (f : String → Option String) (models_name : List String)
    (inference_file : String) : List SideEffect × Option (List String × String × String) :=
  match fetchList f models_name with
  | (evs, none) => (evs, none)
  | (evs, some models_path) =>
    match f "Model.py" with
    | none => (evs ++ [SideEffect.download "Model.py"], none)
    | some model_path =>
      match f inference_file with
      | none => (evs ++ [SideEffect.download "Model.py", SideEffect.download inference_file], none)
      | some inference_file_path =>
        (evs ++ [SideEffect.download "Model.py", SideEffect.download inference_file],
         some (models_path, inference_file_path, model_path))

/-- Staged input volume path inside the workspace (main.py line 165). -/
def stagedVolPath : String :=
  "Dataset/P001/Volume.nii.gz"

/-- Expected prediction path inside the workspace (main.py line 201),
fixed before the engine is invoked. -/
def predPath : String :=
  "Predictions/TotalSegmentator/Dataset/P001/Seg.mha"

/-- Embeds the engine command construction (main.py lines 177-191): base
command, model paths joined by `:`, configuration path, then exactly one of
`--gpu <list>` (when the gpu string is truthy, i.e. non-empty) or
`--cpu <count>`, then the optional `-quiet` flag. -/
def buildCmd (models_path : List String) (inference_file_path : String) (gpu : String)
    (cpu : Int) (quiet : Bool) : List String :=
  ["konfai", "PREDICTION", "-y", "--MODEL", String.intercalate ":" models_path,
   "--config", inference_file_path]
    ++ (if gpu ≠ "" then ["--gpu", gpu] else ["--cpu", toString cpu])
    ++ (if quiet then ["-quiet"] else [])

/-- Embeds the body of the `with tempfile.TemporaryDirectory()` block
(main.py lines 153-214), given the already-downloaded artifact paths.  The
returned trace holds only workspace-scoped side effects; every branch ends
with `removeWorkspace` because `TemporaryDirectory.__exit__` runs even when
`sys.exit` raises `SystemExit` inside the block. -/
def run_in_workspace (o : Oracle) (a : Args) (models_path : List String)
    (inference_file_path : String) : RunResult :=
  if o.copyOk = false then
    ⟨[SideEffect.removeWorkspace], [Msg.cannotCopyModel], 1⟩
  else if o.readWriteOk = false then
    ⟨[SideEffect.copyModelFile, SideEffect.removeWorkspace],
     [Msg.sitkInOutError a.input stagedVolPath], 1⟩
  else
    let cmd := buildCmd models_path inference_file_path a.gpu a.cpu a.quiet
    let t := [SideEffect.copyModelFile, SideEffect.writeStagedVolume, SideEffect.runEngine cmd]
    match o.engine with
    | EngineResult.notFound =>
      ⟨t ++ [SideEffect.removeWorkspace], [Msg.konfaiExeNotFound], 1⟩
    | EngineResult.exited c =>
      if c ≠ 0 then
        ⟨t ++ [SideEffect.removeWorkspace], [Msg.engineFailed c], c⟩
      else if o.predExists = false then
        ⟨t ++ [SideEffect.removeWorkspace], [Msg.predictionNotFound predPath], 1⟩
      else if o.convertOutOk = false then
        ⟨t ++ [SideEffect.removeWorkspace], [Msg.outputSaveError predPath a.output], 1⟩
      else
        ⟨t ++ [SideEffect.writeUserOutput, SideEffect.removeWorkspace],
         if a.quiet then [] else [Msg.done a.output], 0⟩

/-- Embeds `main` after argument parsing (main.py lines 126-217): input
existence and extension checks, output directory creation and extension
check, engine-availability preflight, task resolution, artifact download,
then the workspace block.  `sys.exit(1)` on each failure is modelled by the
exit code of the returned `RunResult`. -/
def main_run (o : Oracle) (a : Args) : RunResult :=
  if o.inputExists = false then
    ⟨[], [Msg.inputMissing a.input], 1⟩
  else if extOk a.input = false then
    ⟨[], [Msg.unsupportedInput (pathName a.input), Msg.supported SUPPORTED_EXTENSIONS], 1⟩
  else if o.mkdirRes = MkdirResult.failed then
    ⟨[], [Msg.cannotCreateOutDir], 1⟩
  else
    let t0 : List SideEffect :=
      if o.mkdirRes = MkdirResult.created then [SideEffect.mkdirOutParent] else []
    if extOk a.output = false then
      ⟨t0, [Msg.unsupportedOutput (pathName a.output), Msg.supported SUPPORTED_EXTENSIONS], 1⟩
    else if o.konfaiOnPath = false then
      ⟨t0, [Msg.konfaiNotInPath], 1⟩
    else
      match download_models o.fetch (get_models_name a.task a.fast).1
          (get_models_name a.task a.fast).2 with
      | (devs, none) => ⟨t0 ++ devs, [Msg.downloadError], 1⟩
      | (devs, some (models_path, inference_file_path, _model_path)) =>
        ⟨t0 ++ devs ++ [SideEffect.mkdirWorkspace]
           ++ (run_in_workspace o a models_path inference_file_path).trace,
         (run_in_workspace o a models_path inference_file_path).messages,
         (run_in_workspace o a models_path inference_file_path).exitCode⟩

/-- All downloads of the resolved model set succeed. -/
def downloadsOk (o : Oracle) (a : Args) : Bool :=
  (download_models o.fetch (get_models_name a.task a.fast).1
    (get_models_name a.task a.fast).2).2.isSome

/-- Both path validations and all preflight steps succeed, i.e. the run
reaches the workspace block. -/
def reachOk (o : Oracle) (a : Args) : Bool :=
  o.inputExists && extOk a.input && !(o.mkdirRes == MkdirResult.failed) && extOk a.output
    && o.konfaiOnPath && downloadsOk o a

/-- Every step up to and including the input conversion succeeds, i.e. the
run reaches the engine invocation. -/
def preOk (o : Oracle) (a : Args) : Bool :=
  reachOk o a && o.copyOk && o.readWriteOk

/-- The run reaches the final output conversion: the engine ran, exited 0,
and the expected prediction file is present. -/
def reachedConvertOut (o : Oracle) (a : Args) : Bool :=
  preOk o a && (o.engine == EngineResult.exited 0) && o.predExists

/-- The whole run succeeds. -/
def runOk (o : Oracle) (a : Args) : Bool :=
  reachedConvertOut o a && o.convertOutOk

/-- Concrete hub oracle for witnesses: every artifact downloads to a cache
path derived from its name. -/
def fetchSome : String → Option String :=
  fun n => some ("/hub/" ++ n)

/-- Concrete arguments of an ordinary run (`-i scan.nii.gz`, defaults). -/
def aGood : Args :=
  { input := "/data/scan.nii.gz", output := "/out/Seg.nii.gz", task := "total",
    fast := false, quiet := false, gpu := "", cpu := 1 }

/-- Concrete arguments whose output path has an unsupported extension. -/
def aBadOut : Args :=
  { input := "/data/scan.nii.gz", output := "/out/seg.txt", task := "total",
    fast := false, quiet := false, gpu := "", cpu := 1 }

/-- Concrete arguments whose input path has an unsupported extension. -/
def aBadIn : Args :=
  { input := "/data/scan.txt", output := "/out/Seg.nii.gz", task := "total",
    fast := false, quiet := false, gpu := "", cpu := 1 }

/-- Concrete oracle where everything succeeds and the output parent
directory is newly created. -/
def oGood : Oracle :=
  { inputExists := true, mkdirRes := MkdirResult.created, konfaiOnPath := true,
    fetch := fetchSome, copyOk := true, readWriteOk := true,
    engine := EngineResult.exited 0, predExists := true, convertOutOk := true }

/-- Concrete oracle where the engine process runs and exits with code 3. -/
def oEngineFail : Oracle :=
  { inputExists := true, mkdirRes := MkdirResult.created, konfaiOnPath := true,
    fetch := fetchSome, copyOk := true, readWriteOk := true,
    engine := EngineResult.exited 3, predExists := true, convertOutOk := true }

/-- Concrete oracle where the engine exits 0 but the expected prediction
file is absent. -/
def oNoPred : Oracle :=
  { inputExists := true, mkdirRes := MkdirResult.created, konfaiOnPath := true,
    fetch := fetchSome, copyOk := true, readWriteOk := true,
    engine := EngineResult.exited 0, predExists := false, convertOutOk := true }

/-! Helper lemmas about the download stage, the workspace stage, and the
assembled driver. -/

theorem fetchList_trace_downloads (f : String → Option String) (ns : List String) :
    ∀ e ∈ (fetchList f ns).1, ∃ n, e = SideEffect.download n := by
  induction ns with
  | nil => simp [fetchList]
  | cons n ns ih =>
    intro e he
    simp only [fetchList] at he
    cases hf : f n with
    | none => rw [hf] at he; simp at he; exact ⟨n, he⟩
    | some p =>
      rw [hf] at he
      simp only [List.mem_cons] at he
      rcases he with rfl | he
      · exact ⟨n, rfl⟩
      · exact ih e he

theorem download_models_trace_downloads (f : String → Option String) (ns : List String)
    (cfg : String) :
    ∀ e ∈ (download_models f ns cfg).1, ∃ n, e = SideEffect.download n := by
  intro e he
  rcases hfl : fetchList f ns with ⟨evs, r⟩
  have hevs : ∀ e ∈ evs, ∃ n, e = SideEffect.download n := by
    intro e' he'
    exact fetchList_trace_downloads f ns e' (by rw [hfl]; exact he')
  rcases r with _ | mp
  · simp only [download_models, hfl] at he
    exact hevs e he
  · rcases h2 : f "Model.py" with _ | mpath
    · simp only [download_models, hfl, h2] at he
      simp only [List.mem_append, List.mem_singleton] at he
      rcases he with he | rfl
      · exact hevs e he
      · exact ⟨"Model.py", rfl⟩
    · rcases h3 : f cfg with _ | cfgp <;>
        simp only [download_models, hfl, h2, h3, List.mem_append, List.mem_cons,
          List.mem_singleton, List.not_mem_nil, or_false] at he <;>
        rcases he with he | rfl | rfl
      · exact hevs e he
      · exact ⟨"Model.py", rfl⟩
      · exact ⟨cfg, rfl⟩
      · exact hevs e he
      · exact ⟨"Model.py", rfl⟩
      · exact ⟨cfg, rfl⟩

theorem no_workspace_events_in_downloads (f : String → Option String) (ns : List String)
    (cfg : String) :
    SideEffect.mkdirWorkspace ∉ (download_models f ns cfg).1 ∧
      SideEffect.removeWorkspace ∉ (download_models f ns cfg).1 := by
  constructor <;> intro h <;>
    rcases download_models_trace_downloads f ns cfg _ h with ⟨n, hn⟩ <;> simp at hn

theorem run_in_workspace_remove (o : Oracle) (a : Args) (mp : List String) (ifp : String) :
    SideEffect.removeWorkspace ∈ (run_in_workspace o a mp ifp).trace := by
  rcases o with ⟨ie, mk, kp, f, cp, rwk, eng, pe, co⟩
  cases cp <;> cases rwk <;> rcases eng with _ | c <;> simp [run_in_workspace] <;>
    rcases Nat.eq_zero_or_pos c with rfl | hc <;> cases pe <;> cases co <;>
    simp [Nat.pos_iff_ne_zero.mp, *]

theorem run_in_workspace_write_user (o : Oracle) (a : Args) (mp : List String) (ifp : String)
    (h : SideEffect.writeUserOutput ∈ (run_in_workspace o a mp ifp).trace) :
    o.copyOk = true ∧ o.readWriteOk = true ∧ o.engine = EngineResult.exited 0 ∧
      o.predExists = true ∧ o.convertOutOk = true := by
  rcases o with ⟨ie, mk, kp, f, cp, rwk, eng, pe, co⟩
  cases cp <;> cases rwk <;> rcases eng with _ | c <;> simp_all [run_in_workspace] <;>
    rcases Nat.eq_zero_or_pos c with rfl | hc <;> cases pe <;> cases co <;>
    simp_all [Nat.pos_iff_ne_zero]

theorem run_in_workspace_exit_zero (o : Oracle) (a : Args) (mp : List String) (ifp : String) :
    (run_in_workspace o a mp ifp).exitCode = 0 ↔
      (o.copyOk && o.readWriteOk && (o.engine == EngineResult.exited 0) && o.predExists
        && o.convertOutOk) = true := by
  rcases o with ⟨ie, mk, kp, f, cp, rwk, eng, pe, co⟩
  cases cp <;> cases rwk <;> rcases eng with _ | c <;> simp_all [run_in_workspace] <;>
    rcases Nat.eq_zero_or_pos c with rfl | hc <;> cases pe <;> cases co <;>
    simp_all [Nat.pos_iff_ne_zero]

theorem run_in_workspace_engine_fail (o : Oracle) (a : Args) (mp : List String) (ifp : String)
    (c : Nat) (hcp : o.copyOk = true) (hrw : o.readWriteOk = true)
    (heng : o.engine = EngineResult.exited c) (hc : c ≠ 0) :
    (run_in_workspace o a mp ifp).exitCode = c ∧
      Msg.engineFailed c ∈ (run_in_workspace o a mp ifp).messages := by
  rcases o with ⟨ie, mk, kp, f, cp, rwk, eng, pe, co⟩
  simp_all [run_in_workspace]

theorem run_in_workspace_not_found (o : Oracle) (a : Args) (mp : List String) (ifp : String)
    (hcp : o.copyOk = true) (hrw : o.readWriteOk = true)
    (heng : o.engine = EngineResult.notFound) :
    (run_in_workspace o a mp ifp).exitCode = 1 ∧
      Msg.konfaiExeNotFound ∈ (run_in_workspace o a mp ifp).messages ∧
      ∀ c, Msg.engineFailed c ∉ (run_in_workspace o a mp ifp).messages := by
  rcases o with ⟨ie, mk, kp, f, cp, rwk, eng, pe, co⟩
  simp_all [run_in_workspace]

theorem run_in_workspace_pred_missing (o : Oracle) (a : Args) (mp : List String) (ifp : String)
    (hcp : o.copyOk = true) (hrw : o.readWriteOk = true)
    (heng : o.engine = EngineResult.exited 0) (hpred : o.predExists = false) :
    (run_in_workspace o a mp ifp).exitCode = 1 ∧
      Msg.predictionNotFound predPath ∈ (run_in_workspace o a mp ifp).messages := by
  rcases o with ⟨ie, mk, kp, f, cp, rwk, eng, pe, co⟩
  simp_all [run_in_workspace]

theorem run_in_workspace_exit_shape (o : Oracle) (a : Args) (mp : List String) (ifp : String) :
    (run_in_workspace o a mp ifp).exitCode = 0 ∨ (run_in_workspace o a mp ifp).exitCode = 1 ∨
      (o.copyOk = true ∧ o.readWriteOk = true ∧
        o.engine = EngineResult.exited ((run_in_workspace o a mp ifp).exitCode) ∧
        (run_in_workspace o a mp ifp).exitCode ≠ 0) := by
  rcases o with ⟨ie, mk, kp, f, cp, rwk, eng, pe, co⟩
  cases cp <;> cases rwk <;> rcases eng with _ | c <;> simp_all [run_in_workspace] <;>
    rcases Nat.eq_zero_or_pos c with rfl | hc <;> cases pe <;> cases co <;>
    simp_all [Nat.pos_iff_ne_zero]

theorem main_run_workspace_branch (o : Oracle) (a : Args) (hie : o.inputExists = true)
    (h1 : extOk a.input = true) (hmk : o.mkdirRes ≠ MkdirResult.failed)
    (h2 : extOk a.output = true) (hkp : o.konfaiOnPath = true) (devs : List SideEffect)
    (mp : List String) (ifp mpath : String)
    (hdl : download_models o.fetch (get_models_name a.task a.fast).1
        (get_models_name a.task a.fast).2 = (devs, some (mp, ifp, mpath))) :
    (main_run o a).exitCode = (run_in_workspace o a mp ifp).exitCode ∧
      (main_run o a).messages = (run_in_workspace o a mp ifp).messages ∧
      (main_run o a).trace =
        (if o.mkdirRes = MkdirResult.created then [SideEffect.mkdirOutParent] else []) ++ devs
          ++ [SideEffect.mkdirWorkspace] ++ (run_in_workspace o a mp ifp).trace := by
  rcases o with ⟨ie, mk, kp, f, cp, rwk, eng, pe, co⟩
  simp only at hie hkp hdl hmk
  subst hie hkp
  cases mk <;> simp_all [main_run]

theorem downloadsOk_elim (o : Oracle) (a : Args) (h : downloadsOk o a = true) :
    ∃ devs mp ifp mpath,
      download_models o.fetch (get_models_name a.task a.fast).1
        (get_models_name a.task a.fast).2 = (devs, some (mp, ifp, mpath)) := by
  unfold downloadsOk at h
  rcases hdl : download_models o.fetch (get_models_name a.task a.fast).1
      (get_models_name a.task a.fast).2 with ⟨devs, r⟩
  rw [hdl] at h
  rcases r with _ | ⟨mp, ifp, mpath⟩
  · simp at h
  · exact ⟨devs, mp, ifp, mpath, rfl⟩

theorem reachOk_elim (o : Oracle) (a : Args) (hr : reachOk o a = true) :
    o.inputExists = true ∧ extOk a.input = true ∧ o.mkdirRes ≠ MkdirResult.failed ∧
      extOk a.output = true ∧ o.konfaiOnPath = true ∧ downloadsOk o a = true := by
  simp only [reachOk, Bool.and_eq_true] at hr
  refine ⟨hr.1.1.1.1.1, hr.1.1.1.1.2, ?_, hr.1.1.2, hr.1.2, hr.2⟩
  simpa using hr.1.1.1.2

theorem main_run_early_exit (o : Oracle) (a : Args) (h : reachOk o a = false) :
    (main_run o a).exitCode = 1 ∧
      ∀ e ∈ (main_run o a).trace,
        e = SideEffect.mkdirOutParent ∨ ∃ n, e = SideEffect.download n := by
  rcases o with ⟨ie, mk, kp, f, cp, rwk, eng, pe, co⟩
  simp only [reachOk, downloadsOk] at h
  cases ie
  · simp [main_run]
  cases h1 : extOk a.input
  · simp [main_run, h1]
  cases h2 : extOk a.output <;> cases kp <;> cases mk <;>
    try simp [main_run, h1, h2]
  all_goals {
    rw [h1, h2] at h
    simp only [Bool.true_and, Bool.and_true, Bool.not_true, Bool.and_false,
      Bool.false_and] at h
    rcases hdl : download_models f (get_models_name a.task a.fast).1
        (get_models_name a.task a.fast).2 with ⟨devs, r⟩
    rcases r with _ | ⟨mp, ifp, mpath⟩
    · have hdev := download_models_trace_downloads f (get_models_name a.task a.fast).1
        (get_models_name a.task a.fast).2
      rw [hdl] at hdev
      constructor
      · simp [main_run, h1, h2, hdl]
      · intro e he
        have he' : e = SideEffect.mkdirOutParent ∨ e ∈ devs := by
          simp [main_run, h1, h2, hdl] at he
          tauto
        rcases he' with rfl | hm
        · exact Or.inl rfl
        · exact Or.inr (hdev e hm)
    · rw [hdl] at h
      simp at h
  }

theorem main_run_exit_zero (o : Oracle) (a : Args) :
    (main_run o a).exitCode = 0 ↔ runOk o a = true := by
  by_cases hr : reachOk o a = true
  · obtain ⟨h1, h2, h3, h4, h5, h6⟩ := reachOk_elim o a hr
    rcases downloadsOk_elim o a h6 with ⟨devs, mp, ifp, mpath, hdl⟩
    have hbr := main_run_workspace_branch o a h1 h2 h3 h4 h5 devs mp ifp mpath hdl
    rw [hbr.1, run_in_workspace_exit_zero]
    simp [runOk, reachedConvertOut, preOk, hr]
  · have he := main_run_early_exit o a (by simpa using hr)
    rw [he.1]
    simp [runOk, reachedConvertOut, preOk, Bool.eq_false_iff.mpr, hr]

theorem main_run_write_user (o : Oracle) (a : Args)
    (h : SideEffect.writeUserOutput ∈ (main_run o a).trace) :
    runOk o a = true := by
  by_cases hr : reachOk o a = true
  · obtain ⟨h1, h2, h3, h4, h5, h6⟩ := reachOk_elim o a hr
    rcases downloadsOk_elim o a h6 with ⟨devs, mp, ifp, mpath, hdl⟩
    have hbr := main_run_workspace_branch o a h1 h2 h3 h4 h5 devs mp ifp mpath hdl
    rw [hbr.2.2] at h
    have hdev := download_models_trace_downloads o.fetch (get_models_name a.task a.fast).1
      (get_models_name a.task a.fast).2
    rw [hdl] at hdev
    simp only [List.append_assoc, List.mem_append, List.mem_cons, List.mem_singleton,
      List.not_mem_nil, or_false] at h
    have hin : SideEffect.writeUserOutput ∈ (run_in_workspace o a mp ifp).trace := by
      rcases h with h | h | h | h
      · exfalso
        split at h <;> simp at h
      · exact absurd (hdev _ h) (by simp)
      · exact absurd h (by simp)
      · exact h
    obtain ⟨hcp, hrw, heng, hpe, hco⟩ := run_in_workspace_write_user o a mp ifp hin
    simp [runOk, reachedConvertOut, preOk, hr, hcp, hrw, heng, hpe, hco]
  · obtain ⟨-, htr⟩ := main_run_early_exit o a (by simpa using hr)
    rcases htr _ h with hmk | ⟨n, hn⟩
    · exact absurd hmk (by simp)
    · exact absurd hn (by simp)

theorem preOk_elim (o : Oracle) (a : Args) (h : preOk o a = true) :
    reachOk o a = true ∧ o.copyOk = true ∧ o.readWriteOk = true := by
  simp only [preOk, Bool.and_eq_true] at h
  exact ⟨h.1.1, h.1.2, h.2⟩

theorem fetchList_index (f : String → Option String) :
    ∀ (ns ps : List String), (fetchList f ns).2 = some ps →
      ps.length = ns.length ∧
        ∀ i (hn : i < ns.length) (hp : i < ps.length),
          f (ns.get ⟨i, hn⟩) = some (ps.get ⟨i, hp⟩) := by
  intro ns
  induction ns with
  | nil =>
    intro ps h
    simp only [fetchList] at h
    obtain rfl : ps = [] := by simpa using h.symm
    simp
  | cons n ns ih =>
    intro ps h
    simp only [fetchList] at h
    cases hf : f n with
    | none => rw [hf] at h; simp at h
    | some p =>
      rw [hf] at h
      simp only [Option.map_eq_some'] at h
      obtain ⟨qs, hqs, rfl⟩ := h
      obtain ⟨hlen, hidx⟩ := ih qs hqs
      refine ⟨by simp [hlen], ?_⟩
      intro i hn hp
      cases i with
      | zero => simpa using hf
      | succ j =>
        have hn' : j < ns.length := by simpa using hn
        have hp' : j < qs.length := by simpa using hp
        simpa using hidx j hn' hp'

/-! Claim theorems. -/

/-- C1, counterexample to the claim as stated: on a run whose output path
has an unsupported extension (`/out/seg.txt`), the program performs a side
effect — it creates the output parent directory (main.py line 139) —
before the output extension is validated (line 144), and only then
terminates with exit status 1. -/
theorem C1_counterexample :
    extOk aBadOut.output = false ∧
      (main_run oGood aBadOut).trace = [SideEffect.mkdirOutParent] ∧
      (main_run oGood aBadOut).exitCode = 1 := by
  decide

/-- C1 (amended): whenever either extension validation fails, the run
terminates with exit status 1; if the input path fails validation the run
has performed no side effect at all (empty trace), and in every case the
only side effect it may have performed is the creation of the output
parent directory — so no download, no workspace staging and no file write
ever precedes the two path validations, and nothing at all precedes the
input-path validation. -/
theorem C1_amended_no_effect_before_validation (o : Oracle) (a : Args)
    (h : extOk a.input = false ∨ extOk a.output = false) :
    (main_run o a).exitCode = 1 ∧
      (extOk a.input = false → (main_run o a).trace = []) ∧
      ∀ e ∈ (main_run o a).trace, e = SideEffect.mkdirOutParent := by
  rcases o with ⟨ie, mk, kp, f, cp, rwk, eng, pe, co⟩
  cases ie
  · simp [main_run]
  cases h1 : extOk a.input
  · simp [main_run, h1]
  cases h2 : extOk a.output
  · cases mk <;> simp [main_run, h1, h2]
  · simp [h1, h2] at h

/-- Witness for C1's amended theorem at the concrete bad-output-extension run. -/
theorem C1_amended_witness :
    (main_run oGood aBadOut).exitCode = 1 ∧
      (extOk aBadOut.input = false → (main_run oGood aBadOut).trace = []) ∧
      ∀ e ∈ (main_run oGood aBadOut).trace, e = SideEffect.mkdirOutParent :=
  C1_amended_no_effect_before_validation oGood aBadOut (Or.inr (by decide))

/-- C3: the Task Resolver is the pure function `get_models_name`;
`resolve("total", fast=false)` yields the ordered 5-model ensemble and the
standard CT configuration identifier, and `resolve("total_mr", fast=true)`
yields exactly one model identifier and the fast MR configuration
identifier. -/
theorem C3_task_resolver :
    get_models_name "total" false =
        (["M291.pt", "M292.pt", "M293.pt", "M294.pt", "M295.pt"], "Prediction_CT.yml") ∧
      (get_models_name "total" false).1.length = 5 ∧
      get_models_name "total_mr" true = (["M852.pt"], "Prediction_MR_Fast.yml") ∧
      (get_models_name "total_mr" true).1.length = 1 := by
  decide

/-- C7: the ephemeral workspace is removed on every exit path on which it
was created — `mkdirWorkspace` occurs in a run's trace exactly when
`removeWorkspace` does, for every oracle (hence for every error path:
staging failure, conversion failure, engine failure, missing prediction,
output-conversion failure) and for success. -/
theorem C7_workspace_cleanup (o : Oracle) (a : Args) :
    SideEffect.mkdirWorkspace ∈ (main_run o a).trace ↔
      SideEffect.removeWorkspace ∈ (main_run o a).trace := by
  by_cases hr : reachOk o a = true
  · obtain ⟨h1, h2, h3, h4, h5, h6⟩ := reachOk_elim o a hr
    rcases downloadsOk_elim o a h6 with ⟨devs, mp, ifp, mpath, hdl⟩
    have hbr := main_run_workspace_branch o a h1 h2 h3 h4 h5 devs mp ifp mpath hdl
    rw [hbr.2.2]
    simp [run_in_workspace_remove o a mp ifp]
  · obtain ⟨-, htr⟩ := main_run_early_exit o a (by simpa using hr)
    constructor <;> intro hm <;> rcases htr _ hm with hx | ⟨n, hx⟩ <;>
      exact absurd hx (by simp)

/-- C8: if any step before the final output conversion fails (validation,
download, staging, input conversion, engine invocation, or locating the
prediction), the user-specified output path is never written. -/
theorem C8_no_partial_output (o : Oracle) (a : Args)
    (h : reachedConvertOut o a = false) :
    SideEffect.writeUserOutput ∉ (main_run o a).trace := by
  intro hmem
  have hok := main_run_write_user o a hmem
  simp [runOk, h] at hok

/-- Witness for C8 at the concrete run whose engine exits with code 3. -/
theorem C8_no_partial_output_witness :
    SideEffect.writeUserOutput ∉ (main_run oEngineFail aGood).trace :=
  C8_no_partial_output oEngineFail aGood (by decide)

/-- C9: if the engine exits 0 but the expected prediction file is absent at
its fixed relative path inside the workspace's prediction subtree, the run
reports the missing output (naming the expected path) and exits 1. -/
theorem C9_missing_prediction (o : Oracle) (a : Args) (hpre : preOk o a = true)
    (heng : o.engine = EngineResult.exited 0) (hpred : o.predExists = false) :
    (main_run o a).exitCode = 1 ∧
      Msg.predictionNotFound predPath ∈ (main_run o a).messages ∧
      predPath = "Predictions/TotalSegmentator/Dataset/P001/Seg.mha" := by
  obtain ⟨hro, hcp, hrw⟩ := preOk_elim o a hpre
  obtain ⟨h1, h2, h3, h4, h5, h6⟩ := reachOk_elim o a hro
  rcases downloadsOk_elim o a h6 with ⟨devs, mp, ifp, mpath, hdl⟩
  have hbr := main_run_workspace_branch o a h1 h2 h3 h4 h5 devs mp ifp mpath hdl
  have hw := run_in_workspace_pred_missing o a mp ifp hcp hrw heng hpred
  refine ⟨?_, ?_, rfl⟩
  · rw [hbr.1]; exact hw.1
  · rw [hbr.2.1]; exact hw.2

/-- Witness for C9 at the concrete zero-exit run with no prediction file. -/
theorem C9_missing_prediction_witness :
    (main_run oNoPred aGood).exitCode = 1 ∧
      Msg.predictionNotFound predPath ∈ (main_run oNoPred aGood).messages ∧
      predPath = "Predictions/TotalSegmentator/Dataset/P001/Seg.mha" :=
  C9_missing_prediction oNoPred aGood (by decide) (by decide) (by decide)

/-- C10: for every task string other than the two known ones the resolver
returns the empty model list and the empty configuration identifier, and
such a task is rejected by the CLI because the argparse choices list is
exactly `["total", "total_mr"]`. -/
theorem C10_unknown_task (task : String) (fast : Bool)
    (h1 : task ≠ "total") (h2 : task ≠ "total_mr") :
    get_models_name task fast = ([], "") ∧
      taskChoices = ["total", "total_mr"] ∧ task ∉ taskChoices := by
  refine ⟨?_, rfl, ?_⟩
  · simp [get_models_name, h1, h2]
  · simp [taskChoices, _get_available_models, h1, h2]

/-- Witness for C10 at the concrete unknown task string. -/
theorem C10_unknown_task_witness :
    get_models_name "heart" false = ([], "") ∧
      taskChoices = ["total", "total_mr"] ∧ "heart" ∉ taskChoices :=
  C10_unknown_task "heart" false (by decide) (by decide)

/-- C2: the exit-code contract.  Exit status 0 exactly on full success;
every other exit is 1 unless the engine process itself ran and exited
nonzero, in which case that code is propagated verbatim together with its
distinct message; a missing engine executable (either preflight `which`
failure or `FileNotFoundError` at invocation) exits 1 with a message
distinct from the engine-run-failure message. -/
theorem C2_exit_code_contract (o : Oracle) (a : Args) :
    ((main_run o a).exitCode = 0 ↔ runOk o a = true) ∧
    ((main_run o a).exitCode ≠ 0 →
      (main_run o a).exitCode = 1 ∨
        (preOk o a = true ∧
          o.engine = EngineResult.exited ((main_run o a).exitCode))) ∧
    (∀ c, preOk o a = true → o.engine = EngineResult.exited c → c ≠ 0 →
      (main_run o a).exitCode = c ∧ Msg.engineFailed c ∈ (main_run o a).messages) ∧
    (preOk o a = true → o.engine = EngineResult.notFound →
      (main_run o a).exitCode = 1 ∧ Msg.konfaiExeNotFound ∈ (main_run o a).messages ∧
        ∀ c, Msg.engineFailed c ∉ (main_run o a).messages) ∧
    (o.inputExists = true → extOk a.input = true → o.mkdirRes ≠ MkdirResult.failed →
      extOk a.output = true → o.konfaiOnPath = false →
      (main_run o a).exitCode = 1 ∧ Msg.konfaiNotInPath ∈ (main_run o a).messages ∧
        Msg.konfaiNotInPath ≠ Msg.konfaiExeNotFound ∧
        ∀ c, Msg.konfaiNotInPath ≠ Msg.engineFailed c) := by
  refine ⟨main_run_exit_zero o a, ?_, ?_, ?_, ?_⟩
  · intro hne
    by_cases hr : reachOk o a = true
    · obtain ⟨h1, h2, h3, h4, h5, h6⟩ := reachOk_elim o a hr
      rcases downloadsOk_elim o a h6 with ⟨devs, mp, ifp, mpath, hdl⟩
      have hbr := main_run_workspace_branch o a h1 h2 h3 h4 h5 devs mp ifp mpath hdl
      rcases run_in_workspace_exit_shape o a mp ifp with hz | ho | ⟨hcp, hrw, heng, hnz⟩
      · exact absurd (hbr.1.trans hz) hne
      · exact Or.inl (hbr.1.trans ho)
      · refine Or.inr ⟨?_, ?_⟩
        · simp [preOk, hr, hcp, hrw]
        · rw [hbr.1]; exact heng
    · exact Or.inl (main_run_early_exit o a (by simpa using hr)).1
  · intro c hpre heng hc
    obtain ⟨hro, hcp, hrw⟩ := preOk_elim o a hpre
    obtain ⟨h1, h2, h3, h4, h5, h6⟩ := reachOk_elim o a hro
    rcases downloadsOk_elim o a h6 with ⟨devs, mp, ifp, mpath, hdl⟩
    have hbr := main_run_workspace_branch o a h1 h2 h3 h4 h5 devs mp ifp mpath hdl
    have hw := run_in_workspace_engine_fail o a mp ifp c hcp hrw heng hc
    refine ⟨hbr.1.trans hw.1, ?_⟩
    rw [hbr.2.1]; exact hw.2
  · intro hpre heng
    obtain ⟨hro, hcp, hrw⟩ := preOk_elim o a hpre
    obtain ⟨h1, h2, h3, h4, h5, h6⟩ := reachOk_elim o a hro
    rcases downloadsOk_elim o a h6 with ⟨devs, mp, ifp, mpath, hdl⟩
    have hbr := main_run_workspace_branch o a h1 h2 h3 h4 h5 devs mp ifp mpath hdl
    have hw := run_in_workspace_not_found o a mp ifp hcp hrw heng
    refine ⟨hbr.1.trans hw.1, ?_, ?_⟩
    · rw [hbr.2.1]; exact hw.2.1
    · intro c; rw [hbr.2.1]; exact hw.2.2 c
  · intro hie h1 hmk h2 hkp
    rcases o with ⟨ie, mk, kp, f, cp, rwk, eng, pe, co⟩
    simp only at hie hkp hmk
    subst hie hkp
    cases mk <;> simp_all [main_run]

/-- Witness for C2 at the concrete run whose engine exits with code 3. -/
theorem C2_exit_code_contract_witness :
    (main_run oEngineFail aGood).exitCode = 3 ∧
      Msg.engineFailed 3 ∈ (main_run oEngineFail aGood).messages :=
  (C2_exit_code_contract oEngineFail aGood).2.2.1 3 (by decide) (by decide) (by decide)

/-- C4: a path passes extension validation iff its string form ends with
one of the eight supported suffixes (a plain suffix match — `volnii`
passes, showing no structured extension parse), the identical check and
suffix set apply to the input and the output path, and a rejected path is
reported by filename together with the full allowed set before the run
exits with status 1. -/
theorem C4_extension_validation (o : Oracle) (a : Args) (p : String) :
    (extOk p = true ↔
      (endswith p "mha" = true ∨ endswith p "mhd" = true ∨ endswith p "nii" = true ∨
        endswith p "nii.gz" = true ∨ endswith p "nrrd" = true ∨ endswith p "nrrd.gz" = true ∨
        endswith p "gipl" = true ∨ endswith p "gipl.gz" = true)) ∧
    extOk "volnii" = true ∧
    (o.inputExists = true → extOk a.input = false →
      (main_run o a).exitCode = 1 ∧
      (main_run o a).messages =
        [Msg.unsupportedInput (pathName a.input), Msg.supported SUPPORTED_EXTENSIONS]) ∧
    (o.inputExists = true → extOk a.input = true → o.mkdirRes ≠ MkdirResult.failed →
      extOk a.output = false →
      (main_run o a).exitCode = 1 ∧
      (main_run o a).messages =
        [Msg.unsupportedOutput (pathName a.output), Msg.supported SUPPORTED_EXTENSIONS]) := by
  refine ⟨?_, by decide, ?_, ?_⟩
  · simp [extOk, SUPPORTED_EXTENSIONS]
  · intro hie h1
    rcases o with ⟨ie, mk, kp, f, cp, rwk, eng, pe, co⟩
    simp only at hie
    subst hie
    simp [main_run, h1]
  · intro hie h1 hmk h2
    rcases o with ⟨ie, mk, kp, f, cp, rwk, eng, pe, co⟩
    simp only at hie hmk
    subst hie
    cases mk <;> simp_all [main_run]

/-- Witness for C4 at the concrete bad-input-extension run. -/
theorem C4_extension_validation_witness :
    (main_run oGood aBadIn).exitCode = 1 ∧
      (main_run oGood aBadIn).messages =
        [Msg.unsupportedInput "scan.txt", Msg.supported SUPPORTED_EXTENSIONS] :=
  (C4_extension_validation oGood aBadIn "x").2.2.1 (by decide) (by decide)

/-- C5: whenever `download_models` succeeds, the returned local paths are
index-for-index the fetches of the corresponding model identifiers (same
length, same order), and the constructed engine command carries them,
joined by the fixed separator `:`, as its fifth element (the value of
`--MODEL`). -/
theorem C5_order_preserved (f : String → Option String) (names : List String) (cfg : String)
    (devs : List SideEffect) (paths : List String) (cfgPath mPath : String)
    (h : download_models f names cfg = (devs, some (paths, cfgPath, mPath))) :
    paths.length = names.length ∧
      (∀ i (hn : i < names.length) (hp : i < paths.length),
        f (names.get ⟨i, hn⟩) = some (paths.get ⟨i, hp⟩)) ∧
      (∀ gpu cpu quiet,
        (buildCmd paths cfgPath gpu cpu quiet)[4]? = some (String.intercalate ":" paths)) := by
  have hfl : (fetchList f names).2 = some paths := by
    rcases hfl0 : fetchList f names with ⟨evs, r⟩
    rcases r with _ | qs
    · simp [download_models, hfl0] at h
    · rcases h2 : f "Model.py" with _ | mm
      · simp [download_models, hfl0, h2] at h
      · rcases h3 : f cfg with _ | cc
        · simp [download_models, hfl0, h2, h3] at h
        · simp only [download_models, hfl0, h2, h3, Prod.mk.injEq, Option.some.injEq] at h
          obtain ⟨-, rfl, -, -⟩ := h
          simp
  obtain ⟨hlen, hidx⟩ := fetchList_index f names paths hfl
  refine ⟨hlen, hidx, ?_⟩
  intro gpu cpu quiet
  rfl

/-- Witness for C5 at the concrete five-model download through the hub
oracle. -/
theorem C5_order_preserved_witness :
    fetchSome "M291.pt" = some "/hub/M291.pt" :=
  (C5_order_preserved fetchSome ["M291.pt", "M292.pt", "M293.pt", "M294.pt", "M295.pt"]
      "Prediction_CT.yml"
      [SideEffect.download "M291.pt", SideEffect.download "M292.pt",
        SideEffect.download "M293.pt", SideEffect.download "M294.pt",
        SideEffect.download "M295.pt", SideEffect.download "Model.py",
        SideEffect.download "Prediction_CT.yml"]
      ["/hub/M291.pt", "/hub/M292.pt", "/hub/M293.pt", "/hub/M294.pt", "/hub/M295.pt"]
      "/hub/Prediction_CT.yml" "/hub/Model.py" (by decide)).2.1 0 (by decide) (by decide)

/-- C6: device-selection exclusivity of the constructed command — when the
gpu list string is non-empty the command contains the `--gpu` argument and
no `--cpu` argument, and when it is empty the command contains the `--cpu`
argument and no `--gpu` argument (the hypotheses record that the artifact
paths, the joined model string and the device values are not themselves the
literal flag strings). -/
theorem C6_device_exclusivity (models_path : List String) (ifp gpu : String) (cpu : Int)
    (quiet : Bool)
    (h1 : "--cpu" ≠ String.intercalate ":" models_path) (h2 : "--cpu" ≠ ifp)
    (h3 : "--cpu" ≠ gpu) (h4 : "--gpu" ≠ String.intercalate ":" models_path)
    (h5 : "--gpu" ≠ ifp) (h6 : "--gpu" ≠ toString cpu) :
    (gpu ≠ "" →
      "--gpu" ∈ buildCmd models_path ifp gpu cpu quiet ∧
        "--cpu" ∉ buildCmd models_path ifp gpu cpu quiet) ∧
    (gpu = "" →
      "--cpu" ∈ buildCmd models_path ifp gpu cpu quiet ∧
        "--gpu" ∉ buildCmd models_path ifp gpu cpu quiet) := by
  constructor <;> intro hg <;> cases quiet <;>
    simp [buildCmd, hg, h1, h2, h3, h4, h5, h6]

/-- Witness for C6 at a concrete single-GPU command. -/
theorem C6_device_exclusivity_witness :
    "--gpu" ∈ buildCmd ["/hub/M291.pt"] "/hub/Prediction_CT.yml" "0" 1 false ∧
      "--cpu" ∉ buildCmd ["/hub/M291.pt"] "/hub/Prediction_CT.yml" "0" 1 false :=
  (C6_device_exclusivity ["/hub/M291.pt"] "/hub/Prediction_CT.yml" "0" 1 false
      (by decide) (by decide) (by decide) (by decide) (by decide) (by decide)).1 (by decide)
